import Mathlib

/-!
Verification development for the node-ssh-forward SSH session orchestrator
(source file src/Connection.ts).  The TypeScript code is shallowly embedded
below: every operation becomes a pure Lean function that returns the final
promise state together with an ordered trace of the externally visible
effects (transport connect attempts, passphrase prompts, forwarded-channel
requests, registry pushes, listener and stream operations).  JavaScript
truthiness, the option-spread in connect, and the promise-settlement rules
(first resolve or reject wins; a throw inside an async promise executor does
not settle the promise) are modelled explicitly.
-/

namespace NodeSshForward

/-- JavaScript truthiness of a string: falsy exactly when empty. -/
def strTruthy (s : String) : Bool := !s.isEmpty

/-- JavaScript truthiness of an optional string field: undefined and the
empty string are falsy. -/
def strOptTruthy : Option String → Bool
  | none => false
  | some s => !s.isEmpty

/-- JavaScript truthiness of an optional number field: undefined and 0 are
falsy. -/
def numOptTruthy : Option Nat → Bool
  | none => false
  | some n => n != 0

/-- JavaScript `a || b` on optional strings: keeps the first operand when it
is truthy, otherwise the second. -/
def jsStrOr (a b : Option String) : Option String :=
  if strOptTruthy a then a else b

/-- JavaScript `a || d` on an optional number against a default. -/
def jsNumOr (a : Option Nat) (d : Nat) : Nat :=
  match a with
  | none => d
  | some n => if n != 0 then n else d

/-- JavaScript `a || d` on an optional string against a string default,
as in `options.toHost || "localhost"`. -/
def jsStrOrD (a : Option String) (d : String) : String :=
  match a with
  | none => d
  | some s => if s.isEmpty then d else s

/-- Whether the pattern matches at the head of the character list. -/
def headMatch : List Char → List Char → Bool
  | [], _ => true
  | _ :: _, [] => false
  | a :: as, b :: bs => a == b && headMatch as bs

/-- Whether the pattern occurs somewhere inside the character list. -/
def findSub (pat : List Char) : List Char → Bool
  | [] => headMatch pat []
  | b :: bs => headMatch pat (b :: bs) || findSub pat bs

/-- JavaScript `s.includes(pat)`: substring occurrence test. -/
def containsSub (pat s : String) : Bool := findSub pat.data s.data

/-- JavaScript `s.toLowerCase()`, character by character. -/
def lowerString (s : String) : String := ⟨s.data.map Char.toLower⟩

/-- Model of the caller-supplied `Options` object (Connection.ts lines
30-37 plus the ssh2 ConnectConfig fields the code reads).  An `Option`
field with value `none` models an absent property. -/
structure Options where
  bastionHost : Option String := none
  endPort : Option Nat := none
  endHost : String
  agentSocket : Option String := none
  skipAutoPrivateKey : Bool := false
  noReadline : Bool := false
  username : Option String := none
  privateKey : Option String := none
  passphrase : Option String := none
  agentForward : Bool := false
  host : Option String := none
  port : Option Nat := none
  agent : Option String := none
  deriving DecidableEq, Repr

/-- Model of the process environment and platform facts the code reads:
the SSH_USERNAME, USER and SSH_AUTH_SOCK environment variables,
`process.platform === "win32"`, and the default key file
(home directory + .ssh/id_rsa): `none` when the file does not exist,
`some contents` when it does. -/
structure Env where
  sshUsernameEnv : Option String := none
  userEnv : Option String := none
  sshAuthSock : Option String := none
  isWindows : Bool := false
  homeKeyFile : Option String := none
  deriving DecidableEq, Repr

/-- Result of running the constructor (Connection.ts lines 52-66):
the normalized options, whether the auto-load branch was taken (the
existsSync probe on the default key file ran), and whether the file was
actually read (probe ran and the file exists). -/
structure ConstructResult where
  options : Options
  autoLoadAttempted : Bool
  fileRead : Bool
  deriving DecidableEq, Repr

/-- First constructor step (Connection.ts lines 54-56): fill in the
username from SSH_USERNAME or USER when falsy. -/
def normalizeUsername (env : Env) (o : Options) : Options :=
  if strOptTruthy o.username then o
  else { o with username := jsStrOr env.sshUsernameEnv env.userEnv }

/-- Second constructor step (Connection.ts lines 57-59): default endPort to
22 when falsy. -/
def normalizePort (o : Options) : Options :=
  if numOptTruthy o.endPort then o else { o with endPort := some 22 }

/-- The constructor (Connection.ts lines 52-66).  Fills in the username
from SSH_USERNAME or USER when falsy, defaults endPort to 22 when falsy,
and auto-loads the default private key file exactly when privateKey,
agentForward and skipAutoPrivateKey are all falsy and the file exists. -/
def construct (env : Env) (o : Options) : ConstructResult :=
  let o2 := normalizePort (normalizeUsername env o)
  if !strOptTruthy o2.privateKey && !o2.agentForward && !o2.skipAutoPrivateKey then
    match env.homeKeyFile with
    | some contents => ⟨{ o2 with privateKey := some contents }, true, true⟩
    | none => ⟨o2, true, false⟩
  else ⟨o2, false, false⟩

/-- The two normalization steps leave the privateKey, agentForward and
skipAutoPrivateKey fields untouched. -/
lemma normalize_key_fields (env : Env) (o : Options) :
    (normalizePort (normalizeUsername env o)).privateKey = o.privateKey ∧
    (normalizePort (normalizeUsername env o)).agentForward = o.agentForward ∧
    (normalizePort (normalizeUsername env o)).skipAutoPrivateKey = o.skipAutoPrivateKey := by
  unfold normalizePort normalizeUsername
  split <;> split <;> simp

/-- Final state of a JavaScript promise in this model.  `pending` means the
promise never settles; when an error was raised on a path that cannot settle
the promise (a throw inside an async promise executor, or a rejection of the
value returned by an async callback), it is carried as the unhandled
rejection payload. -/
inductive PromiseState (α : Type) where
  | resolved (a : α)
  | rejected (e : String)
  | pending (unhandledError : Option String)
  deriving DecidableEq, Repr

/-- Behavior of the ssh2 transport for one `connection.connect` attempt:
the client emits `ready`, emits `error`, or `connect` itself throws
synchronously. -/
inductive TransportBehavior where
  | ready
  | errorEvent (e : String)
  | syncThrow (e : String)
  deriving DecidableEq, Repr

/-- The option object handed to `connection.connect` (Connection.ts lines
150-183): `{ host, port: this.options.endPort, ...this.options }` with the
agent, sock and passphrase keys then overwritten.  Because the spread comes
last, a host or port property present on the stored options overrides the
positional values. -/
structure TransportOptions where
  host : String
  port : Option Nat
  username : Option String
  privateKey : Option String
  passphrase : Option String
  agent : Option String
  agentForwardFlag : Bool
  hasSock : Bool
  deriving DecidableEq, Repr

/-- One externally visible effect of the connection-establishment code:
an invocation of the private `connect` method (with its host argument and
whether a relay stream was passed), a readline passphrase prompt, an
invocation of the transport primitive `connection.connect`, a push onto the
session registry (inside the `ready` handler), or a `forwardOut` request on
the bastion session with its bind and destination endpoints. -/
inductive Event where
  | connectCall (host : String) (withStream : Bool)
  | passphrasePrompt
  | transportConnect (opts : TransportOptions)
  | sessionRegistered (host : String)
  | forwardOutRequest (bindHost : String) (bindPort : Nat) (destHost : String) (destPort : Nat)
  deriving DecidableEq, Repr

/-- The agent socket candidate (Connection.ts lines 160-168): the
SSH_AUTH_SOCK value, replaced by the literal pageant identifier on Windows
when SSH_AUTH_SOCK is null or undefined; an explicitly supplied truthy
agentSocket option takes precedence. -/
def agentCandidate (o : Options) (env : Env) : Option String :=
  let agentDefault :=
    if env.isWindows && env.sshAuthSock.isNone then some "pageant" else env.sshAuthSock
  if strOptTruthy o.agentSocket then o.agentSocket else agentDefault

/-- Whether the agent-forwarding branch throws (Connection.ts lines
169-171): agent forwarding requested and the resolved socket is null. -/
def agentThrows (o : Options) (env : Env) : Bool :=
  o.agentForward && (agentCandidate o env).isNone

/-- The error message thrown when no agent socket is resolvable
(Connection.ts line 170). -/
def agentErrMsg : String :=
  "SSH Agent Socket is not provided, or is not set in the SSH_AUTH_SOCK env variable"

/-- The encrypted-key heuristic (Connection.ts line 180): a truthy private
key whose lowercased text contains the substring encrypted. -/
def looksEncrypted (o : Options) : Bool :=
  match o.privateKey with
  | none => false
  | some k => if k.isEmpty then false else containsSub "encrypted" (lowerString k)

/-- Whether the passphrase prompt fires (Connection.ts line 181): the key
looks encrypted, the passphrase copied from the stored options is falsy,
and noReadline is not set. -/
def doPrompt (o : Options) : Bool :=
  looksEncrypted o && !strOptTruthy o.passphrase && !o.noReadline

/-- The options passed to `connection.connect` (Connection.ts lines
150-183), after the agent, sock and passphrase rewrites.  `ans` is the
answer the readline prompt would return. -/
def transportOpts (o : Options) (env : Env) (hostArg : String) (hasStream : Bool)
    (ans : String) : TransportOptions :=
  { host := o.host.getD hostArg
    port := match o.port with | some p => some p | none => o.endPort
    username := o.username
    privateKey := o.privateKey
    passphrase := if doPrompt o then some ans else o.passphrase
    agent := if o.agentForward then agentCandidate o env else o.agent
    agentForwardFlag := o.agentForward
    hasSock := hasStream }

/-- The private `connect` method (Connection.ts lines 145-200).  The body
runs inside `new Promise(async (resolve, reject) => ...)`; the promise
settles only through resolve (in the `ready` handler, which also pushes the
session onto the registry) or reject (the `error` handler, or the catch
around `connection.connect`).  When the agent branch throws, the throw
happens inside the async executor: the async function rejects, the Promise
constructor ignores that, and the returned promise stays pending forever
with the error unhandled — `connection.connect` is never reached. -/
def connectModel (o : Options) (env : Env) (hostArg : String) (hasStream : Bool)
    (tb : TransportBehavior) (ans : String) : PromiseState String × List Event :=
  if agentThrows o env then
    (PromiseState.pending (some agentErrMsg), [Event.connectCall hostArg hasStream])
  else
    ((match tb with
      | TransportBehavior.ready => PromiseState.resolved hostArg
      | TransportBehavior.errorEvent e => PromiseState.rejected e
      | TransportBehavior.syncThrow e => PromiseState.rejected e),
     [Event.connectCall hostArg hasStream] ++
       (if doPrompt o then [Event.passphrasePrompt] else []) ++
       [Event.transportConnect (transportOpts o env hostArg hasStream ans)] ++
       (match tb with
        | TransportBehavior.ready => [Event.sessionRegistered hostArg]
        | _ => []))

/-- `connectViaBastion` (Connection.ts lines 131-143): connect to the
bastion, then `forwardOut` with bind side hardcoded to 127.0.0.1 port 22 and
destination side `(endHost, endPort || 22)`, then connect to the target
feeding it the forwarded stream.  The forwardOut callback is an async
function: when the second-leg connect rejects, the awaited rejection makes
the async callback reject, which nobody observes — the outer promise stays
pending with that error unhandled.  `tb1` and `tb2` give the transport
behavior of the two legs; `fwdErr` the forwardOut outcome. -/
def connectViaBastionModel (o : Options) (env : Env) (bastionHost : String)
    (tb1 tb2 : TransportBehavior) (fwdErr : Option String) (ans : String) :
    PromiseState String × List Event :=
  let r1 := connectModel o env bastionHost false tb1 ans
  match r1.1 with
  | PromiseState.resolved _ =>
    let fwdEvt := Event.forwardOutRequest "127.0.0.1" 22 o.endHost (jsNumOr o.endPort 22)
    match fwdErr with
    | some e => (PromiseState.rejected e, r1.2 ++ [fwdEvt])
    | none =>
      let r2 := connectModel o env o.endHost true tb2 ans
      (match r2.1 with
       | PromiseState.resolved s => PromiseState.resolved s
       | PromiseState.rejected e => PromiseState.pending (some e)
       | PromiseState.pending u => PromiseState.pending u,
       r1.2 ++ [fwdEvt] ++ r2.2)
  | PromiseState.rejected e => (PromiseState.rejected e, r1.2)
  | PromiseState.pending u => (PromiseState.pending u, r1.2)

/-- `establish` (Connection.ts lines 121-129): via the bastion when
`bastionHost` is truthy, else a single direct connect to `endHost`. -/
def establishModel (o : Options) (env : Env) (tb1 tb2 : TransportBehavior)
    (fwdErr : Option String) (ans : String) : PromiseState String × List Event :=
  if strOptTruthy o.bastionHost then
    connectViaBastionModel o env (o.bastionHost.getD "") tb1 tb2 fwdErr ans
  else
    connectModel o env o.endHost false tb1 ans

/-- Recognizer for `connectCall` events. -/
def isConnectCallE : Event → Bool
  | Event.connectCall _ _ => true
  | _ => false

/-- Recognizer for `forwardOutRequest` events. -/
def isForwardOutE : Event → Bool
  | Event.forwardOutRequest _ _ _ _ => true
  | _ => false

/-- Recognizer for `passphrasePrompt` events. -/
def isPromptE : Event → Bool
  | Event.passphrasePrompt => true
  | _ => false

/-- Recognizer for `transportConnect` events. -/
def isTransportConnectE : Event → Bool
  | Event.transportConnect _ => true
  | _ => false

/-- Recognizer for `sessionRegistered` events. -/
def isRegisterE : Event → Bool
  | Event.sessionRegistered _ => true
  | _ => false

/-- The subtrace of `connect` invocations and forwarded-channel requests,
in order. -/
def connectionTrace (evs : List Event) : List Event :=
  evs.filter (fun e => isConnectCallE e || isForwardOutE e)

/-- The forwarded-channel requests of a trace. -/
def forwardOutRequests (evs : List Event) : List Event :=
  evs.filter isForwardOutE

/-- Number of passphrase prompts in a trace. -/
def promptCount (evs : List Event) : Nat :=
  (evs.filter isPromptE).length

/-- Number of transport connect invocations in a trace. -/
def transportConnectCount (evs : List Event) : Nat :=
  (evs.filter isTransportConnectE).length

/-- Number of registry pushes in a trace. -/
def registerCount (evs : List Event) : Nat :=
  (evs.filter isRegisterE).length

/-- Prompts and transport connects only, each transport connect reduced to
the passphrase it carries: a `none` entry is a prompt, a `some p` entry is a
`connection.connect` invocation sending passphrase `p`.  This exposes both
the relative order of prompts and connect attempts and the passphrase each
attempt was given. -/
def promptPassphraseTrace (evs : List Event) : List (Option (Option String)) :=
  evs.filterMap (fun e =>
    match e with
    | Event.passphrasePrompt => some none
    | Event.transportConnect t => some (some t.passphrase)
    | _ => none)

/-- State of the orchestrator at shutdown time: the registered sessions
(as abstract identifiers, in registration order) and whether the forwarding
listener slot is occupied. -/
structure Registry where
  connections : List Nat
  serverActive : Bool
  deriving DecidableEq, Repr

/-- One step of the shutdown trace: listener-detach and end on a session,
initiation of the listener close, a call to resolve (the first such call
settles the shutdown promise), and the asynchronous completion of the
listener close. -/
inductive ShutdownEvent where
  | removeAllListeners (s : Nat)
  | endSession (s : Nat)
  | serverCloseInitiated
  | resolveCall
  | serverCloseCompleted
  deriving DecidableEq, Repr

/-- `shutdown` (Connection.ts lines 68-80).  The loop detaches listeners
from and ends each registered session in order.  The promise executor then
runs synchronously: when a server exists it initiates `server.close(resolve)`
and — with no else — immediately calls `resolve()` as well; the close
completes later on the event loop and invokes its callback, a second
(no-op) resolve.  When no server exists only the immediate resolve runs. -/
def shutdownModel (r : Registry) : List ShutdownEvent :=
  (r.connections.map (fun s =>
    [ShutdownEvent.removeAllListeners s, ShutdownEvent.endSession s])).flatten ++
  (if r.serverActive then
    [ShutdownEvent.serverCloseInitiated, ShutdownEvent.resolveCall,
     ShutdownEvent.serverCloseCompleted, ShutdownEvent.resolveCall]
   else
    [ShutdownEvent.resolveCall])

/-- Index in the shutdown trace at which the shutdown promise settles:
the first resolve call. -/
def shutdownSettleIdx (r : Registry) : Nat :=
  (shutdownModel r).findIdx (fun e => e == ShutdownEvent.resolveCall)

/-- Index in the shutdown trace at which the listener close completes. -/
def shutdownCloseDoneIdx (r : Registry) : Nat :=
  (shutdownModel r).findIdx (fun e => e == ShutdownEvent.serverCloseCompleted)

/-- One effect of the shell driver (Connection.ts lines 94-119): the
channel request, piping the channel to stdout, writing bytes to the channel,
closing its write side, piping stdin into it, the channel close event, and
the close-handler actions. -/
inductive ShellEvent where
  | shellChannelRequested
  | stdoutPiped
  | channelWrite (data : String)
  | channelWriteEnd
  | stdinPipedToChannel
  | channelClosed
  | stdinUnpiped
  | stdinDestroyed
  | sessionEnded
  | shutdownInvoked
  | resolveCall
  deriving DecidableEq, Repr

/-- The close-handler suffix of the shell trace (Connection.ts lines
100-106): `stream.end()`, unpipe and destroy stdin, end the session, await
full shutdown, then resolve. -/
def shellCloseSuffix : List ShellEvent :=
  [ShellEvent.channelClosed, ShellEvent.channelWriteEnd, ShellEvent.stdinUnpiped,
   ShellEvent.stdinDestroyed, ShellEvent.sessionEnded, ShellEvent.shutdownInvoked,
   ShellEvent.resolveCall]

/-- The private `shell` method (Connection.ts lines 94-119).  `command` is
the optional command argument; `shellErr` the error the transport passes to
the shell callback, if any; `closes` whether the channel eventually reports
closed.  With a truthy command the code writes the command text plus a
newline, the word exit and a newline, and ends the write side
(`stream.end`); with a falsy command — absent, or the empty string — it
pipes stdin into the channel instead.  The promise resolves only in the
close handler. -/
def shellModel (command : Option String) (shellErr : Option String) (closes : Bool) :
    PromiseState Bool × List ShellEvent :=
  match shellErr with
  | some e => (PromiseState.rejected e, [ShellEvent.shellChannelRequested])
  | none =>
    let setup := [ShellEvent.shellChannelRequested, ShellEvent.stdoutPiped] ++
      (if strOptTruthy command then
        [ShellEvent.channelWrite ((command.getD "") ++ "\nexit\n"), ShellEvent.channelWriteEnd]
       else
        [ShellEvent.stdinPipedToChannel])
    if closes then
      (PromiseState.resolved true, setup ++ shellCloseSuffix)
    else
      (PromiseState.pending none, setup)

/-- `executeCommand` (Connection.ts lines 88-92): establish, then run the
shell with the given command.  Returns the final promise state, the
establishment trace and the shell trace. -/
def executeCommandModel (o : Options) (env : Env) (tb1 tb2 : TransportBehavior)
    (fwdErr : Option String) (ans : String) (command : String)
    (shellErr : Option String) (closes : Bool) :
    PromiseState Bool × List Event × List ShellEvent :=
  let r := establishModel o env tb1 tb2 fwdErr ans
  match r.1 with
  | PromiseState.resolved _ =>
    let r2 := shellModel (some command) shellErr closes
    (r2.1, r.2, r2.2)
  | PromiseState.rejected e => (PromiseState.rejected e, r.2, [])
  | PromiseState.pending u => (PromiseState.pending u, r.2, [])

/-- The forwarding rule (Connection.ts lines 39-43). -/
structure ForwardingOptions where
  fromPort : Nat
  toPort : Nat
  toHost : Option String := none
  deriving DecidableEq, Repr

/-- One effect of the forwarding proxy (Connection.ts lines 214-235):
binding the listener, the resolve call made from the listen callback, the
unconditional diagnostic trace at the top of the per-client handler, a
forwardOut request, a reject call (settling the forward promise only if it
is still pending), the two pipe directions, destruction of the client
socket, and closing of the listener. -/
inductive ForwardEvent where
  | listenerBound (port : Nat)
  | forwardResolveCall
  | debugTrace
  | forwardOutCall (bindHost : String) (bindPort : Nat) (destHost : String) (destPort : Nat)
  | rejectCall (e : String)
  | pipeClientToChannel
  | pipeChannelToClient
  | clientSocketDestroyed
  | listenerClosed
  deriving DecidableEq, Repr

/-- The per-client connection handler (Connection.ts lines 217-231):
unconditionally trace, request `forwardOut` from localhost:fromPort to
`(toHost || "localhost"):toPort`; in the callback, on error call reject and
return — the socket is left open and nothing further is logged — and on
success pipe socket to stream and stream to socket.  `chanErr` is the error
the transport passes to the forwardOut callback, if any. -/
def clientHandlerModel (fo : ForwardingOptions) (chanErr : Option String) :
    List ForwardEvent :=
  [ForwardEvent.debugTrace,
   ForwardEvent.forwardOutCall "localhost" fo.fromPort (jsStrOrD fo.toHost "localhost") fo.toPort] ++
  (match chanErr with
   | some e => [ForwardEvent.rejectCall e]
   | none => [ForwardEvent.pipeClientToChannel, ForwardEvent.pipeChannelToClient])

/-- `forward` after a successful establish (Connection.ts lines 216-234):
the listener is created and bound, the listen callback resolves the forward
promise, then each accepted client runs the per-client handler.  `clients`
gives, per accepted client in order, the channel-open outcome. -/
def forwardModel (fo : ForwardingOptions) (clients : List (Option String)) :
    List ForwardEvent :=
  [ForwardEvent.listenerBound fo.fromPort, ForwardEvent.forwardResolveCall] ++
  (clients.map (clientHandlerModel fo)).flatten

/-- The final state of the forward promise over a trace: the first resolve
or reject call settles it, later settle calls are no-ops. -/
def forwardPromiseOutcome (evs : List ForwardEvent) : PromiseState Bool :=
  match evs.filterMap (fun e =>
    match e with
    | ForwardEvent.forwardResolveCall => some (PromiseState.resolved true)
    | ForwardEvent.rejectCall err => some (PromiseState.rejected err)
    | _ => none) with
  | [] => PromiseState.pending none
  | s :: _ => s

/-- Recognizer for the diagnostic-trace forwarding event. -/
def isDebugTraceE : ForwardEvent → Bool
  | ForwardEvent.debugTrace => true
  | _ => false

/-- Recognizer for listener-close forwarding events. -/
def isListenerClosedE : ForwardEvent → Bool
  | ForwardEvent.listenerClosed => true
  | _ => false

/-- Recognizer for client-socket-destroy forwarding events. -/
def isSocketDestroyedE : ForwardEvent → Bool
  | ForwardEvent.clientSocketDestroyed => true
  | _ => false

section HelperLemmas

/-- The connect promise resolves exactly on `ready` when the agent branch
does not throw. -/
lemma connectModel_fst_ready (o : Options) (env : Env) (h : String) (s : Bool)
    (ans : String) (hagent : agentThrows o env = false) :
    (connectModel o env h s TransportBehavior.ready ans).1 = PromiseState.resolved h := by
  simp [connectModel, hagent]

/-- `connectionTrace` distributes over concatenation. -/
lemma connectionTrace_append (a b : List Event) :
    connectionTrace (a ++ b) = connectionTrace a ++ connectionTrace b := by
  simp [connectionTrace, List.filter_append]

/-- Every run of the `connect` method contributes exactly its own
invocation to the connection trace, whatever the transport does. -/
lemma connectionTrace_connectModel (o : Options) (env : Env) (h : String) (s : Bool)
    (tb : TransportBehavior) (ans : String) :
    connectionTrace (connectModel o env h s tb ans).2 = [Event.connectCall h s] := by
  cases hA : agentThrows o env <;> cases hdp : doPrompt o <;> cases tb <;>
    simp [connectModel, connectionTrace, hA, hdp, isConnectCallE, isForwardOutE]

/-- `forwardOutRequests` distributes over concatenation. -/
lemma forwardOutRequests_append (a b : List Event) :
    forwardOutRequests (a ++ b) = forwardOutRequests a ++ forwardOutRequests b := by
  simp [forwardOutRequests, List.filter_append]

/-- A run of the `connect` method issues no forwarded-channel request. -/
lemma forwardOutRequests_connectModel (o : Options) (env : Env) (h : String) (s : Bool)
    (tb : TransportBehavior) (ans : String) :
    forwardOutRequests (connectModel o env h s tb ans).2 = [] := by
  cases hA : agentThrows o env <;> cases hdp : doPrompt o <;> cases tb <;>
    simp [connectModel, forwardOutRequests, hA, hdp, isForwardOutE]

/-- `promptPassphraseTrace` distributes over concatenation. -/
lemma promptPassphraseTrace_append (a b : List Event) :
    promptPassphraseTrace (a ++ b) = promptPassphraseTrace a ++ promptPassphraseTrace b := by
  simp [promptPassphraseTrace, List.filterMap_append]

/-- The prompt-and-passphrase trace of one `connect` run: a prompt entry
exactly when the prompt condition holds, followed by the one transport
connect carrying the prompted answer or the stored passphrase. -/
lemma promptPassphraseTrace_connectModel (o : Options) (env : Env) (h : String) (s : Bool)
    (tb : TransportBehavior) (ans : String) (hagent : agentThrows o env = false) :
    promptPassphraseTrace (connectModel o env h s tb ans).2 =
      (if doPrompt o then [none] else []) ++
      [some (if doPrompt o then some ans else o.passphrase)] := by
  cases hdp : doPrompt o <;> cases tb <;>
    simp [connectModel, hagent, hdp, promptPassphraseTrace, transportOpts]

/-- `promptCount` distributes over concatenation. -/
lemma promptCount_append (a b : List Event) :
    promptCount (a ++ b) = promptCount a + promptCount b := by
  simp [promptCount, List.filter_append]

/-- Number of prompts of one `connect` run when the agent branch does not
throw. -/
lemma promptCount_connectModel (o : Options) (env : Env) (h : String) (s : Bool)
    (tb : TransportBehavior) (ans : String) (hagent : agentThrows o env = false) :
    promptCount (connectModel o env h s tb ans).2 = if doPrompt o then 1 else 0 := by
  cases hdp : doPrompt o <;> cases tb <;>
    simp [connectModel, hagent, hdp, promptCount, isPromptE]

end HelperLemmas

/-- Claim C9: at construction, the default key file auto-load runs if and
only if privateKey, agentForward and skipAutoPrivateKey are all unset
(falsy); when it runs and the file exists the resolved privateKey equals
the file contents; when the file is absent the privateKey is left untouched
and no error occurs (the constructor model is total); when the skip flag is
set the privateKey is left untouched even if the file exists. -/
theorem construct_auto_key_load (env : Env) (o : Options) :
    ((construct env o).autoLoadAttempted =
      (!strOptTruthy o.privateKey && !o.agentForward && !o.skipAutoPrivateKey)) ∧
    ((construct env o).fileRead =
      ((construct env o).autoLoadAttempted && env.homeKeyFile.isSome)) ∧
    (∀ c : String, (construct env o).autoLoadAttempted = true → env.homeKeyFile = some c →
      (construct env o).options.privateKey = some c) ∧
    ((construct env o).autoLoadAttempted = true → env.homeKeyFile = none →
      (construct env o).options.privateKey = o.privateKey) ∧
    (o.skipAutoPrivateKey = true →
      (construct env o).options.privateKey = o.privateKey) := by
  obtain ⟨hpk, haf, hsk⟩ := normalize_key_fields env o
  simp only [construct]
  rw [hpk, haf, hsk]
  cases hc : (!strOptTruthy o.privateKey && !o.agentForward && !o.skipAutoPrivateKey) <;>
    cases hf : env.homeKeyFile <;>
      simp_all

/-- Witness for claim C9 at concrete inputs: with an existing default key
file the key is auto-loaded; with the skip flag it is not. -/
theorem construct_auto_key_load_witness :
    (construct { homeKeyFile := some "KEYDATA" } { endHost := "h" }).options.privateKey =
      some "KEYDATA" ∧
    (construct { homeKeyFile := some "KEYDATA" }
      { endHost := "h", skipAutoPrivateKey := true }).options.privateKey = none := by
  constructor
  · exact (construct_auto_key_load { homeKeyFile := some "KEYDATA" }
      { endHost := "h" }).2.2.1 "KEYDATA" rfl rfl
  · exact (construct_auto_key_load { homeKeyFile := some "KEYDATA" }
      { endHost := "h", skipAutoPrivateKey := true }).2.2.2.2 rfl

/-- Claim C1, evaluated at the failing input (agentForward requested, no
agentSocket, SSH_AUTH_SOCK unset, non-Windows platform): the thrown
configuration error is swallowed by the async promise executor, so the
connect and establish promises never settle — they stay pending with the
error only as an unhandled rejection, instead of rejecting as the claim
states — while, as the claim also states, the transport connect primitive
is never invoked. -/
theorem agent_socket_missing_eval :
    connectModel { endHost := "target.example", agentForward := true } {} "target.example"
        false TransportBehavior.ready "unused" =
      (PromiseState.pending (some agentErrMsg),
       [Event.connectCall "target.example" false]) ∧
    establishModel { endHost := "target.example", agentForward := true } {}
        TransportBehavior.ready TransportBehavior.ready none "unused" =
      (PromiseState.pending (some agentErrMsg),
       [Event.connectCall "target.example" false]) ∧
    transportConnectCount (connectModel { endHost := "target.example", agentForward := true }
        {} "target.example" false TransportBehavior.ready "unused").2 = 0 := by
  exact ⟨rfl, rfl, rfl⟩

/-- Claim C4, evaluated at a registry with two sessions and an active
listener: shutdown detaches and ends both sessions in registration order
and initiates the listener close, but the executor then calls resolve
unconditionally, so the shutdown promise settles at trace index 5, before
the listener close completes at index 6 — not after it, as the claim
states. -/
theorem shutdown_resolves_before_close_eval :
    shutdownModel ⟨[1, 2], true⟩ =
      [ShutdownEvent.removeAllListeners 1, ShutdownEvent.endSession 1,
       ShutdownEvent.removeAllListeners 2, ShutdownEvent.endSession 2,
       ShutdownEvent.serverCloseInitiated, ShutdownEvent.resolveCall,
       ShutdownEvent.serverCloseCompleted, ShutdownEvent.resolveCall] ∧
    shutdownSettleIdx ⟨[1, 2], true⟩ = 5 ∧
    shutdownCloseDoneIdx ⟨[1, 2], true⟩ = 6 ∧
    shutdownSettleIdx ⟨[1, 2], true⟩ < shutdownCloseDoneIdx ⟨[1, 2], true⟩ := by
  refine ⟨rfl, rfl, rfl, by decide⟩

/-- Claim C2: with no bastionHost, establish performs exactly one connect
invocation, to endHost, whatever the transport does; with a truthy
bastionHost, when the bastion leg reaches ready and the forwarded channel
opens, establish performs exactly two connect invocations in order — first
the bastion host without a stream, then endHost with the stream obtained
from the forwarded channel request issued on the bastion session between
the two. -/
theorem establish_transport_call_sequence (o : Options) (env : Env)
    (tb2 : TransportBehavior) (fwdErr : Option String) (ans : String) :
    (strOptTruthy o.bastionHost = false →
      ∀ tb1, connectionTrace (establishModel o env tb1 tb2 fwdErr ans).2 =
        [Event.connectCall o.endHost false]) ∧
    (∀ bh, o.bastionHost = some bh → strTruthy bh = true →
      agentThrows o env = false →
      connectionTrace (establishModel o env TransportBehavior.ready tb2 none ans).2 =
        [Event.connectCall bh false,
         Event.forwardOutRequest "127.0.0.1" 22 o.endHost (jsNumOr o.endPort 22),
         Event.connectCall o.endHost true]) := by
  constructor
  · intro hnb tb1
    simp only [establishModel, hnb, Bool.false_eq_true, if_false]
    exact connectionTrace_connectModel o env o.endHost false tb1 ans
  · intro bh hbh htr hagent
    have hb : strOptTruthy o.bastionHost = true := by
      rw [hbh]; simpa [strOptTruthy, strTruthy] using htr
    have hget : o.bastionHost.getD "" = bh := by rw [hbh]; rfl
    simp only [establishModel, hb, if_true, hget, connectViaBastionModel,
      connectModel_fst_ready o env bh false ans hagent]
    rw [connectionTrace_append, connectionTrace_append,
      connectionTrace_connectModel, connectionTrace_connectModel]
    rfl

/-- Witness for claim C2 at concrete inputs: a direct establish makes one
connect call to the target, a bastion-relayed establish makes the
bastion call, the forwarded-channel request, then the stream-fed target
call. -/
theorem establish_transport_call_sequence_witness :
    connectionTrace (establishModel { endHost := "target.example" } {}
        TransportBehavior.ready TransportBehavior.ready none "a").2 =
      [Event.connectCall "target.example" false] ∧
    connectionTrace (establishModel
        { endHost := "target.example", bastionHost := some "bastion.example",
          endPort := some 2222 } {}
        TransportBehavior.ready TransportBehavior.ready none "a").2 =
      [Event.connectCall "bastion.example" false,
       Event.forwardOutRequest "127.0.0.1" 22 "target.example" 2222,
       Event.connectCall "target.example" true] := by
  constructor
  · exact (establish_transport_call_sequence { endHost := "target.example" } {}
      TransportBehavior.ready none "a").1 rfl TransportBehavior.ready
  · exact (establish_transport_call_sequence
      { endHost := "target.example", bastionHost := some "bastion.example",
        endPort := some 2222 } {} TransportBehavior.ready none "a").2
      "bastion.example" rfl rfl rfl

/-- Claim C3: in a bastion-relayed establish the forwarded-channel request
issued on the bastion session binds at 127.0.0.1 port 22 — a constant,
independent of the resolved target port — and its destination is
`(endHost, endPort || 22)`. -/
theorem bastion_forward_channel_endpoints (o : Options) (env : Env)
    (tb2 : TransportBehavior) (ans : String)
    (hb : strOptTruthy o.bastionHost = true)
    (hagent : agentThrows o env = false) :
    forwardOutRequests (establishModel o env TransportBehavior.ready tb2 none ans).2 =
      [Event.forwardOutRequest "127.0.0.1" 22 o.endHost (jsNumOr o.endPort 22)] := by
  simp only [establishModel, hb, if_true, connectViaBastionModel,
    connectModel_fst_ready o env (o.bastionHost.getD "") false ans hagent]
  rw [forwardOutRequests_append, forwardOutRequests_append,
    forwardOutRequests_connectModel, forwardOutRequests_connectModel]
  rfl

/-- Witness for claim C3 at a concrete input with target port 2222: the
bind side stays 127.0.0.1 port 22 while the destination carries 2222. -/
theorem bastion_forward_channel_endpoints_witness :
    forwardOutRequests (establishModel
        { endHost := "target.example", bastionHost := some "bastion.example",
          endPort := some 2222 } {}
        TransportBehavior.ready TransportBehavior.ready none "a").2 =
      [Event.forwardOutRequest "127.0.0.1" 22 "target.example" 2222] := by
  exact bastion_forward_channel_endpoints
    { endHost := "target.example", bastionHost := some "bastion.example",
      endPort := some 2222 } {} TransportBehavior.ready "a" rfl rfl

/-- Claim C7: when the key looks encrypted (its text contains the substring
encrypted, case-insensitively), the stored passphrase is falsy, and the
agent branch does not abort the attempt, then with prompting enabled the
prompt-and-connect trace is exactly one prompt followed by one transport
connect carrying the prompted answer as passphrase; with noReadline set it
is exactly one transport connect carrying the stored (falsy) passphrase and
no prompt. -/
theorem connect_passphrase_prompt_policy (o : Options) (env : Env) (h : String)
    (s : Bool) (tb : TransportBehavior) (ans : String)
    (henc : looksEncrypted o = true)
    (hp : strOptTruthy o.passphrase = false)
    (hagent : agentThrows o env = false) :
    (o.noReadline = false →
      promptPassphraseTrace (connectModel o env h s tb ans).2 =
        [none, some (some ans)]) ∧
    (o.noReadline = true →
      promptPassphraseTrace (connectModel o env h s tb ans).2 =
        [some o.passphrase]) := by
  constructor
  · intro hnr
    have hdp : doPrompt o = true := by simp [doPrompt, henc, hp, hnr]
    rw [promptPassphraseTrace_connectModel o env h s tb ans hagent, hdp]
    simp
  · intro hnr
    have hdp : doPrompt o = false := by simp [doPrompt, hnr]
    rw [promptPassphraseTrace_connectModel o env h s tb ans hagent, hdp]
    simp

/-- Witness for claim C7 at a concrete input: one prompt then one connect
carrying the answer; with noReadline, one connect with no passphrase and no
prompt. -/
theorem connect_passphrase_prompt_policy_witness :
    promptPassphraseTrace (connectModel
        { endHost := "h", privateKey := some "ENCRYPTED RSA KEY" } {} "h" false
        TransportBehavior.ready "sekret").2 = [none, some (some "sekret")] ∧
    promptPassphraseTrace (connectModel
        { endHost := "h", privateKey := some "ENCRYPTED RSA KEY", noReadline := true }
        {} "h" false TransportBehavior.ready "sekret").2 = [some none] := by
  constructor
  · exact (connect_passphrase_prompt_policy
      { endHost := "h", privateKey := some "ENCRYPTED RSA KEY" } {} "h" false
      TransportBehavior.ready "sekret" (by decide) rfl rfl).1 rfl
  · exact (connect_passphrase_prompt_policy
      { endHost := "h", privateKey := some "ENCRYPTED RSA KEY", noReadline := true }
      {} "h" false TransportBehavior.ready "sekret" (by decide) rfl rfl).2 rfl

/-- Claim C8: the connect method pushes onto the session registry exactly
once when the transport fires ready (and the agent branch did not abort),
and never otherwise — in particular a connect attempt that errors, or whose
initiation throws, registers nothing; resolving the connect promise
coincides with having registered on ready. -/
theorem registry_requires_ready (o : Options) (env : Env) (h : String) (s : Bool)
    (tb : TransportBehavior) (ans : String) :
    (registerCount (connectModel o env h s tb ans).2 =
      if agentThrows o env = false ∧ tb = TransportBehavior.ready then 1 else 0) ∧
    ((connectModel o env h s tb ans).1 = PromiseState.resolved h ↔
      (agentThrows o env = false ∧ tb = TransportBehavior.ready)) := by
  cases hA : agentThrows o env <;> cases hdp : doPrompt o <;> cases tb <;>
    simp [connectModel, registerCount, hA, hdp, isRegisterE]

/-- Witness for claim C8 at concrete inputs: a ready transport registers
one session, an erroring transport registers none. -/
theorem registry_requires_ready_witness :
    registerCount (connectModel { endHost := "h" } {} "h" false
        TransportBehavior.ready "a").2 = 1 ∧
    registerCount (connectModel { endHost := "h" } {} "h" false
        (TransportBehavior.errorEvent "boom") "a").2 = 0 := by
  constructor
  · rw [(registry_requires_ready { endHost := "h" } {} "h" false
      TransportBehavior.ready "a").1]
    decide
  · rw [(registry_requires_ready { endHost := "h" } {} "h" false
      (TransportBehavior.errorEvent "boom") "a").1]
    decide

/-- Claim C10: a bastion-relayed establish with an encrypted-looking key,
a falsy stored passphrase and prompting enabled prompts once per connect
leg — twice in total: the trace shows prompt, connect with the answer,
prompt again, connect with the answer again, because the prompted answer
lives only in the per-call transport options and the stored options are
unchanged between the legs. -/
theorem bastion_double_prompt (o : Options) (env : Env)
    (tb2 : TransportBehavior) (ans : String)
    (hb : strOptTruthy o.bastionHost = true)
    (henc : looksEncrypted o = true)
    (hp : strOptTruthy o.passphrase = false)
    (hnr : o.noReadline = false)
    (hagent : agentThrows o env = false) :
    promptPassphraseTrace
        (establishModel o env TransportBehavior.ready tb2 none ans).2 =
      [none, some (some ans), none, some (some ans)] ∧
    promptCount (establishModel o env TransportBehavior.ready tb2 none ans).2 = 2 := by
  have hdp : doPrompt o = true := by simp [doPrompt, henc, hp, hnr]
  constructor
  · simp only [establishModel, hb, if_true, connectViaBastionModel,
      connectModel_fst_ready o env (o.bastionHost.getD "") false ans hagent]
    rw [promptPassphraseTrace_append, promptPassphraseTrace_append,
      promptPassphraseTrace_connectModel _ _ _ _ _ _ hagent,
      promptPassphraseTrace_connectModel _ _ _ _ _ _ hagent, hdp]
    rfl
  · simp only [establishModel, hb, if_true, connectViaBastionModel,
      connectModel_fst_ready o env (o.bastionHost.getD "") false ans hagent]
    rw [promptCount_append, promptCount_append,
      promptCount_connectModel _ _ _ _ _ _ hagent,
      promptCount_connectModel _ _ _ _ _ _ hagent, hdp]
    rfl

/-- Witness for claim C10 at a concrete input: the bastion chain prompts
twice, once before each transport connect, and sends the answer both
times. -/
theorem bastion_double_prompt_witness :
    promptPassphraseTrace (establishModel
        { endHost := "target.example", bastionHost := some "bastion.example",
          privateKey := some "ENCRYPTED RSA KEY" } {}
        TransportBehavior.ready TransportBehavior.ready none "sekret").2 =
      [none, some (some "sekret"), none, some (some "sekret")] := by
  exact (bastion_double_prompt
    { endHost := "target.example", bastionHost := some "bastion.example",
      privateKey := some "ENCRYPTED RSA KEY" } {}
    TransportBehavior.ready "sekret" rfl (by decide) rfl rfl rfl).1

/-- Recognizer for channel-write shell events. -/
def isChannelWriteE : ShellEvent → Bool
  | ShellEvent.channelWrite _ => true
  | _ => false

section ForwardHelperLemmas

/-- A per-client handler never destroys the client socket. -/
lemma clientHandler_no_destroy (fo : ForwardingOptions) (c : Option String) :
    (clientHandlerModel fo c).filter isSocketDestroyedE = [] := by
  cases c <;> simp [clientHandlerModel, isSocketDestroyedE]

/-- A per-client handler never closes the listener. -/
lemma clientHandler_no_close (fo : ForwardingOptions) (c : Option String) :
    (clientHandlerModel fo c).filter isListenerClosedE = [] := by
  cases c <;> simp [clientHandlerModel, isListenerClosedE]

/-- No client handler in a run closes the listener. -/
lemma clients_no_close (fo : ForwardingOptions) (cs : List (Option String)) :
    ((cs.map (clientHandlerModel fo)).flatten).filter isListenerClosedE = [] := by
  induction cs with
  | nil => rfl
  | cons c cs ih =>
    simp only [List.map_cons, List.flatten_cons, List.filter_append,
      clientHandler_no_close, List.nil_append, ih]

end ForwardHelperLemmas

/-- Claim C5, amended to non-empty commands: once establish has resolved
and the shell channel opened, executeCommand with a non-empty command `c`
writes exactly `c` plus a newline, the word exit and a newline to the
channel and then closes the write side, never pipes stdin; the promise
stays pending until the channel reports closed, and when it does, the close
handler unpipes and destroys stdin, ends the session and invokes full
shutdown before the resolve, as the trace order shows. -/
theorem executeCommand_shell_protocol (o : Options) (env : Env)
    (tb1 tb2 : TransportBehavior) (fwdErr : Option String) (ans : String)
    (c : String) (closes : Bool) (sess : String)
    (hc : strTruthy c = true)
    (hest : (establishModel o env tb1 tb2 fwdErr ans).1 = PromiseState.resolved sess) :
    (executeCommandModel o env tb1 tb2 fwdErr ans c none closes).2.2 =
      [ShellEvent.shellChannelRequested, ShellEvent.stdoutPiped,
       ShellEvent.channelWrite (c ++ "\nexit\n"), ShellEvent.channelWriteEnd] ++
      (if closes then shellCloseSuffix else []) ∧
    (executeCommandModel o env tb1 tb2 fwdErr ans c none closes).1 =
      (if closes then PromiseState.resolved true else PromiseState.pending none) := by
  have htr : strOptTruthy (some c) = true := by
    simpa [strOptTruthy, strTruthy] using hc
  cases closes <;>
    simp [executeCommandModel, hest, shellModel, htr]

/-- Witness for the amended claim C5 at a concrete input: the channel
receives the command text, a newline, exit and a newline, the write side is
closed, and after the channel closes the trace runs unpipe, destroy, end,
shutdown, resolve. -/
theorem executeCommand_shell_protocol_witness :
    (executeCommandModel { endHost := "h" } {} TransportBehavior.ready
        TransportBehavior.ready none "a" "echo hi" none true).2.2 =
      [ShellEvent.shellChannelRequested, ShellEvent.stdoutPiped,
       ShellEvent.channelWrite "echo hi\nexit\n", ShellEvent.channelWriteEnd,
       ShellEvent.channelClosed, ShellEvent.channelWriteEnd, ShellEvent.stdinUnpiped,
       ShellEvent.stdinDestroyed, ShellEvent.sessionEnded, ShellEvent.shutdownInvoked,
       ShellEvent.resolveCall] ∧
    (executeCommandModel { endHost := "h" } {} TransportBehavior.ready
        TransportBehavior.ready none "a" "echo hi" none true).1 =
      PromiseState.resolved true := by
  have h := executeCommand_shell_protocol { endHost := "h" } {} TransportBehavior.ready
    TransportBehavior.ready none "a" "echo hi" true "h" rfl rfl
  exact ⟨by rw [h.1]; rfl, by rw [h.2]; rfl⟩

/-- Counterexample to claim C5 as stated: for the empty command string the
JavaScript truthiness test on the command fails, so executeCommand never
writes the exit sequence to the channel — it pipes stdin into the channel
as if an interactive shell had been requested. -/
theorem executeCommand_empty_command_cex :
    (executeCommandModel { endHost := "h" } {} TransportBehavior.ready
        TransportBehavior.ready none "a" "" none true).2.2 =
      [ShellEvent.shellChannelRequested, ShellEvent.stdoutPiped,
       ShellEvent.stdinPipedToChannel] ++ shellCloseSuffix ∧
    (executeCommandModel { endHost := "h" } {} TransportBehavior.ready
        TransportBehavior.ready none "a" "" none true).2.2.filter isChannelWriteE = [] := by
  exact ⟨rfl, rfl⟩

/-- Claim C6, amended: after the listener is bound the forward promise is
resolved and stays resolved — a later per-client reject call cannot settle
it again; the listener is never closed by a client failure, and each
accepted client is handled independently of the outcomes of earlier ones;
however the code does not drop the failing client socket and does not
report the failure: the only diagnostic trace is the one emitted
unconditionally before the channel-open attempt, identical to the success
path. -/
theorem forward_client_failure_policy (fo : ForwardingOptions) (e : String)
    (cs : List (Option String)) :
    forwardPromiseOutcome (forwardModel fo cs) = PromiseState.resolved true ∧
    (forwardModel fo cs).filter isListenerClosedE = [] ∧
    (clientHandlerModel fo (some e)).filter isSocketDestroyedE = [] ∧
    forwardModel fo (cs ++ [some e]) = forwardModel fo cs ++ clientHandlerModel fo (some e) ∧
    (clientHandlerModel fo (some e)).filter isDebugTraceE =
      (clientHandlerModel fo none).filter isDebugTraceE := by
  refine ⟨?_, ?_, clientHandler_no_destroy fo (some e), ?_, ?_⟩
  · simp [forwardModel, forwardPromiseOutcome]
  · simp only [forwardModel, List.filter_append, clients_no_close]
    rfl
  · simp [forwardModel, List.map_append, List.flatten_append]
  · simp [clientHandlerModel, isDebugTraceE]

/-- Witness for the amended claim C6 at concrete inputs: with one failing
client followed by one succeeding client, the promise stays resolved, the
listener stays open, the failing client socket is not destroyed, and the
second client is processed normally. -/
theorem forward_client_failure_policy_witness :
    forwardPromiseOutcome (forwardModel ⟨9000, 5432, none⟩ [some "boom", none]) =
      PromiseState.resolved true ∧
    (forwardModel ⟨9000, 5432, none⟩ [some "boom", none]).filter isListenerClosedE = [] ∧
    (clientHandlerModel ⟨9000, 5432, none⟩ (some "boom")).filter isSocketDestroyedE = [] := by
  have h := forward_client_failure_policy ⟨9000, 5432, none⟩ "boom" [some "boom", none]
  exact ⟨h.1, h.2.1, h.2.2.1⟩

/-- Counterexample to claim C6 as stated: at a concrete per-client
channel-open failure the handler trace ends with the (no-op) reject call —
the client socket is never destroyed, so the connection is not dropped, and
the diagnostic output is exactly the one of the success path, so the
failure is not reported. -/
theorem forward_client_failure_cex :
    clientHandlerModel ⟨9000, 5432, none⟩ (some "channel open failed") =
      [ForwardEvent.debugTrace,
       ForwardEvent.forwardOutCall "localhost" 9000 "localhost" 5432,
       ForwardEvent.rejectCall "channel open failed"] ∧
    (clientHandlerModel ⟨9000, 5432, none⟩ (some "channel open failed")).filter
      isSocketDestroyedE = [] ∧
    (clientHandlerModel ⟨9000, 5432, none⟩ (some "channel open failed")).filter
        isDebugTraceE =
      (clientHandlerModel ⟨9000, 5432, none⟩ none).filter isDebugTraceE := by
  exact ⟨rfl, rfl, rfl⟩

end NodeSshForward
